import Mathlib

/-
Shallow embedding of kralicky/highlander (src/webhook.go): a singleton
admission gate for a Kubernetes-style control plane.  Pure data is embedded
as Lean structures; the external object-store client is a function parameter;
side effects against the client are made explicit as a trace of calls.
-/

namespace Highlander

/-- schema.GroupVersionKind: the (group, version, kind) resource identity. -/
structure GVK where
  group : String
  version : String
  kind : String
deriving DecidableEq, Repr

/-- admissionv1 operation kinds relevant to the gate. -/
inductive Operation
  | create
  | update
  | delete
  | connect
deriving DecidableEq, Repr

/-- A stored object of the protected type, as seen through
unstructured.Unstructured: the gate only reads GetDeletionTimestamp, so an
instance is annotated with its optional deletion timestamp. -/
structure Instance where
  deletionTimestamp : Option Nat
deriving DecidableEq, Repr

/-- client.Object as used by the gate: a representative object of the
protected type.  The gate reads only its namespace (GetNamespace); typeName
stands for its Go type, consulted by the scheme at setup. -/
structure ClientObject where
  typeName : String
  ns : String
deriving DecidableEq, Repr

/-- admission.Request, restricted to the fields the gate reads: the
operation, req.Kind, and the candidate object's namespace. -/
structure AdmissionRequest where
  operation : Operation
  kind : GVK
  ns : String
deriving DecidableEq, Repr

/-- context.Context, reduced to its cancellation state, which is the only
aspect the gate's single blocking read could observe. -/
structure Context where
  cancelled : Bool
deriving DecidableEq, Repr

/-- context.Background(): never cancelled. -/
def Context.background : Context := ⟨false⟩

/-- Go error values reaching the gate: the package sentinel
ErrThereCanBeOnlyOne, or an external error carrying a message. -/
inductive GoErr
  | thereCanBeOnlyOne
  | external (msg : String)
deriving DecidableEq, Repr

/-- var ErrThereCanBeOnlyOne = errors.New("there can be only one instance of
this object per namespace"). -/
def ErrThereCanBeOnlyOne : GoErr := GoErr.thereCanBeOnlyOne

/-- err.Error(): the message of an error value. -/
def GoErr.message : GoErr → String
  | GoErr.thereCanBeOnlyOne =>
      "there can be only one instance of this object per namespace"
  | GoErr.external m => m

/-- errors.Is on the plain (unwrapped) error values of this package:
equality with the target. -/
def errorsIs (err target : GoErr) : Bool := err == target

/-- http.StatusBadRequest. -/
def StatusBadRequest : Nat := 400

/-- admission.Response, at the verdict level the spec calls Verdict:
Allowed(msg), Denied(reason), Errored(code, err). -/
inductive Response
  | allowed (msg : String)
  | denied (reason : String)
  | errored (code : Nat) (err : GoErr)
deriving DecidableEq, Repr

/-- Arguments of one client.Client.List call: the context passed, the GVK
set on the list, and client.ListOptions.Namespace. -/
structure ListQuery where
  ctx : Context
  gvk : GVK
  ns : String
deriving DecidableEq, Repr

/-- The read-only behaviour of client.Client.List: a query either fails with
an error or returns the items of the namespace snapshot. -/
abbrev ListFn : Type := ListQuery → Except GoErr (List Instance)

/-- One call against the client.Client interface.  The interface offers
writes (Create/Update/Delete) as well as List; the trace records which the
gate actually performs. -/
inductive ClientCall
  | list (ctx : Context) (gvk : GVK) (ns : String)
  | create (ns : String) (obj : Instance)
  | update (ns : String) (i : Nat) (obj : Instance)
  | delete (ns : String) (i : Nat)
deriving DecidableEq, Repr

/-- The Webhook struct fields the decision logic reads: the representative
object and the bound GVK (mgr/cli/log are external handles, passed
explicitly where used). -/
structure Webhook where
  object : ClientObject
  gvk : GVK
deriving DecidableEq, Repr

/-- NewFor(apiType): stores the object; gvk is the Go zero value until
SetupWithManager resolves it. -/
def NewFor (apiType : ClientObject) : Webhook :=
  ⟨apiType, ⟨"", "", ""⟩⟩

/-- ValidateCreate: lists instances of w.gvk with
client.ListOptions.Namespace = w.object.GetNamespace(), using
context.Background().  On list failure returns the error; otherwise, if the
result is non-empty, allows only when the first item has a non-nil deletion
timestamp, else returns ErrThereCanBeOnlyOne.  The second component is the
trace of client calls performed. -/
def ValidateCreate (cli : ListFn) (w : Webhook) :
    Option GoErr × List ClientCall :=
  let call := ClientCall.list Context.background w.gvk w.object.ns
  match cli ⟨Context.background, w.gvk, w.object.ns⟩ with
  | Except.error e => (some e, [call])
  | Except.ok items =>
    match items with
    | [] => (none, [call])
    | first :: _ =>
      if first.deletionTimestamp ≠ none then
        (none, [call])
      else
        (some ErrThereCanBeOnlyOne, [call])

/-- Handle(ctx, req): allow non-create operations and requests whose
req.Kind differs from the bound gvk in any component; otherwise run
ValidateCreate and map its error through errors.Is against the sentinel.
Note the ctx parameter is not consulted anywhere, exactly as in the source. -/
def Handle (cli : ListFn) (w : Webhook) (ctx : Context)
    (req : AdmissionRequest) : Response × List ClientCall :=
  if req.operation ≠ Operation.create then
    (Response.allowed "", [])
  else if req.kind.group ≠ w.gvk.group ∨ req.kind.version ≠ w.gvk.version ∨
      req.kind.kind ≠ w.gvk.kind then
    (Response.allowed "", [])
  else
    match ValidateCreate cli w with
    | (some err, calls) =>
      if errorsIs err ErrThereCanBeOnlyOne then
        (Response.denied err.message, calls)
      else
        (Response.errored StatusBadRequest err, calls)
    | (none, calls) => (Response.allowed "", calls)

/-- strings.ReplaceAll(s, ".", "-"): the pattern is the single character
dot, so the call is a character-wise substitution. -/
def replaceDots (s : String) : String :=
  String.mk (s.data.map (fun c => if c = '.' then '-' else c))

/-- strings.ToLower(s), restricted to the ASCII lowercasing the path
derivation relies on. -/
def goToLower (s : String) : String :=
  String.mk (s.data.map Char.toLower)

/-- generateValidatePath(gvk). -/
def generateValidatePath (gvk : GVK) : String :=
  "/highlander-" ++ replaceDots gvk.group ++ "-" ++ gvk.version ++ "-" ++
    goToLower gvk.kind

/-- A route registration against the manager's webhook server. -/
structure Registration where
  path : String
deriving DecidableEq, Repr

/-- SetupWithManager: resolves the GVK of w.object through the manager's
scheme (apiutil.GVKForObject); on failure returns that error having
registered nothing; on success stores the gvk, derives the path and
registers the handler.  The second component is the list of registrations
performed. -/
def SetupWithManager (scheme : ClientObject → Except GoErr GVK)
    (w : Webhook) : Except GoErr Webhook × List Registration :=
  match scheme w.object with
  | Except.error e => (Except.error e, [])
  | Except.ok gvk =>
    (Except.ok ⟨w.object, gvk⟩, [⟨generateValidatePath gvk⟩])

/-- The object store's state: the multiset of stored objects, each tagged
with its namespace. -/
abbrev Store : Type := List (String × Instance)

/-- Effect of one client call on the store: List reads, the write calls of
the client interface mutate. -/
def applyCall (s : Store) : ClientCall → Store
  | ClientCall.list _ _ _ => s
  | ClientCall.create ns obj => s ++ [(ns, obj)]
  | ClientCall.update ns i obj => s.set i (ns, obj)
  | ClientCall.delete _ i => s.eraseIdx i

/-- Effect of a trace of client calls on the store. -/
def applyCalls (s : Store) (cs : List ClientCall) : Store :=
  cs.foldl applyCall s

/-- Concrete fixture: the identity of the spec's running example. -/
def widgetGVK : GVK := ⟨"apps.example.io", "v1", "Widget"⟩

/-- Concrete fixture: a gate bound to widgetGVK whose representative object
has the (typical) empty namespace. -/
def widgetGate : Webhook := ⟨⟨"Widget", ""⟩, widgetGVK⟩

/-- Concrete fixture: a create request for widgetGVK in a given namespace. -/
def createReq (ns : String) : AdmissionRequest :=
  ⟨Operation.create, widgetGVK, ns⟩

/-- Whether a response is a deny verdict. -/
def Response.isDenied : Response → Bool
  | Response.denied _ => true
  | _ => false

/-- Concrete fixture: a store client that honours the cancellation state of
the context it is handed, failing with the cancellation cause when that
context is cancelled and otherwise returning an empty snapshot. -/
def cancelAwareCli : ListFn := fun q =>
  if q.ctx.cancelled then Except.error (GoErr.external "context canceled")
  else Except.ok []

/-- ValidateCreate performs exactly one client call: the list of the bound
gvk in the template object's namespace, under context.Background(). -/
theorem validateCreate_trace (cli : ListFn) (w : Webhook) :
    (ValidateCreate cli w).2 =
      [ClientCall.list Context.background w.gvk w.object.ns] := by
  unfold ValidateCreate
  cases hq : cli ⟨Context.background, w.gvk, w.object.ns⟩ with
  | error e => simp
  | ok items =>
    cases items with
    | nil => simp
    | cons first rest =>
      by_cases hd : first.deletionTimestamp = none <;> simp [hd]

/-- Handle emits either no client call or exactly the single list call of
ValidateCreate. -/
theorem handle_trace_cases (cli : ListFn) (w : Webhook) (ctx : Context)
    (req : AdmissionRequest) :
    (Handle cli w ctx req).2 = [] ∨
    (Handle cli w ctx req).2 =
      [ClientCall.list Context.background w.gvk w.object.ns] := by
  unfold Handle
  by_cases hop : req.operation = Operation.create
  · by_cases hk : req.kind.group ≠ w.gvk.group ∨
        req.kind.version ≠ w.gvk.version ∨ req.kind.kind ≠ w.gvk.kind
    · simp [hop, hk]
    · refine Or.inr ?_
      rcases hv : ValidateCreate cli w with ⟨err, calls⟩
      have hc : calls = [ClientCall.list Context.background w.gvk w.object.ns] := by
        have := validateCreate_trace cli w
        rw [hv] at this
        exact this
      cases err with
      | none => simp [hop, hk, hv, hc]
      | some e =>
        by_cases hs : errorsIs e ErrThereCanBeOnlyOne <;>
          simp [hop, hk, hv, hc, hs]
  · simp [hop]

/-- Cancelling a left factor of a string equation. -/
theorem string_append_left_cancel {a b c : String} (h : a ++ b = a ++ c) :
    b = c := by
  have hd : a.data ++ b.data = a.data ++ c.data := by
    have := congrArg String.data h
    simpa [String.data_append] using this
  exact String.ext (List.append_cancel_left hd)

/-- Claim C1 counterexample: with a snapshot whose first element is
deletion-in-progress but whose second element is not, a matching create
request is allowed, although the snapshot contains an instance with a null
deletion timestamp — the claim demands Deny here. -/
theorem C1_counterexample :
    (Handle (fun _ => Except.ok [⟨some 1⟩, ⟨none⟩]) widgetGate
        Context.background (createReq "team-a")).1 = Response.allowed "" ∧
    (Instance.mk none).deletionTimestamp = none ∧
    Instance.mk none ∈ ([⟨some 1⟩, ⟨none⟩] : List Instance) := by
  refine ⟨rfl, rfl, by simp⟩

/-- Claim C1 (amended): for a matching create request whose list succeeds,
Handle denies if and only if the snapshot is non-empty and its FIRST element
has a null deletion timestamp; later elements are never inspected. -/
theorem C1_deny_iff_first_nondeleting (cli : ListFn) (w : Webhook)
    (ctx : Context) (req : AdmissionRequest) (items : List Instance)
    (hop : req.operation = Operation.create) (hk : req.kind = w.gvk)
    (hcli : cli ⟨Context.background, w.gvk, w.object.ns⟩ = Except.ok items) :
    (Handle cli w ctx req).1.isDenied = true ↔
      ∃ first, items.head? = some first ∧ first.deletionTimestamp = none := by
  cases items with
  | nil =>
    simp [Handle, hop, hk, ValidateCreate, hcli, Response.isDenied]
  | cons first rest =>
    by_cases hd : first.deletionTimestamp = none
    · simp [Handle, hop, hk, ValidateCreate, hcli, hd, errorsIs,
        ErrThereCanBeOnlyOne, Response.isDenied]
    · simp [Handle, hop, hk, ValidateCreate, hcli, hd, Response.isDenied]

/-- Claim C1 witness: a one-element snapshot with a live instance is
denied. -/
theorem C1_witness :
    (Handle (fun _ => Except.ok [⟨none⟩]) widgetGate Context.background
        (createReq "team-a")).1.isDenied = true :=
  (C1_deny_iff_first_nondeleting (fun _ => Except.ok [⟨none⟩]) widgetGate
      Context.background (createReq "team-a") [⟨none⟩] rfl rfl rfl).2
    ⟨⟨none⟩, rfl, rfl⟩

/-- Claim C2 (code bug): two matching create requests that differ only in
the candidate's namespace ("team-a" vs "team-b") produce identical list
calls, both filtered by the template object's namespace (here the empty
string) — the request's own namespace is never queried. -/
theorem C2_lists_template_namespace :
    (Handle (fun _ => Except.ok []) widgetGate Context.background
        (createReq "team-a")).2 =
      [ClientCall.list Context.background widgetGVK ""] ∧
    (Handle (fun _ => Except.ok []) widgetGate Context.background
        (createReq "team-b")).2 =
      [ClientCall.list Context.background widgetGVK ""] ∧
    (createReq "team-a").ns ≠ "" ∧ (createReq "team-b").ns ≠ "" := by
  refine ⟨rfl, rfl, by decide, by decide⟩

/-- Claim C3 counterexample: a failed list makes Handle return the Errored
verdict with status code 400, which lies in the client-error class, not the
server-error class 5xx; and a list failure equal to the sentinel error is
even turned into a Deny rather than an Error verdict. -/
theorem C3_counterexample :
    (Handle (fun _ => Except.error (GoErr.external "boom")) widgetGate
        Context.background (createReq "team-a")).1 =
      Response.errored 400 (GoErr.external "boom") ∧
    ¬ (500 ≤ StatusBadRequest ∧ StatusBadRequest ≤ 599) ∧
    (Handle (fun _ => Except.error GoErr.thereCanBeOnlyOne) widgetGate
        Context.background (createReq "team-a")).1 =
      Response.denied
        "there can be only one instance of this object per namespace" := by
  refine ⟨rfl, by decide, rfl⟩

/-- Claim C3 (amended): for a matching create request, if the list fails
with an error e other than the sentinel, Handle returns the Errored verdict
wrapping e with status code http.StatusBadRequest = 400, a client-error
(bad request) code rather than a server-error code. -/
theorem C3_list_error_becomes_bad_request (cli : ListFn) (w : Webhook)
    (ctx : Context) (req : AdmissionRequest) (e : GoErr)
    (hop : req.operation = Operation.create) (hk : req.kind = w.gvk)
    (hne : e ≠ ErrThereCanBeOnlyOne)
    (hcli : cli ⟨Context.background, w.gvk, w.object.ns⟩ = Except.error e) :
    (Handle cli w ctx req).1 = Response.errored StatusBadRequest e := by
  simp [Handle, hop, hk, ValidateCreate, hcli, errorsIs, hne]

/-- Claim C3 witness: a concrete infrastructure failure yields the 400
Errored verdict. -/
theorem C3_witness :
    (Handle (fun _ => Except.error (GoErr.external "boom")) widgetGate
        Context.background (createReq "team-a")).1 =
      Response.errored StatusBadRequest (GoErr.external "boom") :=
  C3_list_error_becomes_bad_request (fun _ => Except.error (GoErr.external "boom"))
    widgetGate Context.background (createReq "team-a") (GoErr.external "boom")
    rfl rfl (by decide) rfl

/-- Claim C4 counterexample: the kinds "Widget" and "widget" are distinct
strings within the same group and version, yet they derive the same route
identifier, because the derivation lower-cases the kind. -/
theorem C4_counterexample :
    ("Widget" : String) ≠ "widget" ∧
    generateValidatePath ⟨"apps.example.io", "v1", "Widget"⟩ =
      generateValidatePath ⟨"apps.example.io", "v1", "widget"⟩ := by
  exact ⟨by decide, by decide⟩

/-- Claim C4 (amended): route derivation is a deterministic function of the
(group, version, kind) triple, and within a fixed group and version it is
injective up to lower-casing of the kind: kinds whose lower-cased forms
differ derive different identifiers. -/
theorem C4_path_deterministic_injective_up_to_case :
    (∀ g1 g2 : GVK, g1 = g2 →
        generateValidatePath g1 = generateValidatePath g2) ∧
    (∀ g v k1 k2, goToLower k1 ≠ goToLower k2 →
        generateValidatePath ⟨g, v, k1⟩ ≠ generateValidatePath ⟨g, v, k2⟩) := by
  constructor
  · intro g1 g2 h
    rw [h]
  · intro g v k1 k2 hne heq
    apply hne
    unfold generateValidatePath at heq
    exact string_append_left_cancel heq

/-- Claim C4 witness: two case-distinct kinds in one group and version get
distinct routes. -/
theorem C4_witness :
    generateValidatePath ⟨"apps.example.io", "v1", "Widget"⟩ ≠
      generateValidatePath ⟨"apps.example.io", "v1", "Gadget"⟩ :=
  C4_path_deterministic_injective_up_to_case.2 "apps.example.io" "v1"
    "Widget" "Gadget" (by decide)

/-- Claim C5 (code bug): Handle is invoked with an already-cancelled caller
context against a store client that honours cancellation of the context it
is handed; yet the read runs under context.Background() (never cancelled)
and the gate returns Allow instead of aborting with an Error verdict
carrying the cancellation cause. -/
theorem C5_ignores_caller_context :
    (Handle cancelAwareCli widgetGate ⟨true⟩ (createReq "team-a")).1 =
      Response.allowed "" ∧
    (Handle cancelAwareCli widgetGate ⟨true⟩ (createReq "team-a")).2 =
      [ClientCall.list Context.background widgetGVK ""] ∧
    Context.background.cancelled = false ∧
    cancelAwareCli ⟨⟨true⟩, widgetGVK, ""⟩ =
      Except.error (GoErr.external "context canceled") := by
  refine ⟨rfl, rfl, rfl, rfl⟩

/-- Claim C6: for a matching create request whose queried namespace holds
exactly one instance with a null deletion timestamp, Handle returns Deny
with exactly the sentinel reason string; internally ValidateCreate signals
the condition with the sentinel error value, which is distinct from every
infrastructure (external) error. -/
theorem C6_single_nondeleting_instance_denied (cli : ListFn) (w : Webhook)
    (ctx : Context) (req : AdmissionRequest) (inst : Instance)
    (hop : req.operation = Operation.create) (hk : req.kind = w.gvk)
    (hdel : inst.deletionTimestamp = none)
    (hcli : cli ⟨Context.background, w.gvk, w.object.ns⟩ =
      Except.ok [inst]) :
    (Handle cli w ctx req).1 = Response.denied
        "there can be only one instance of this object per namespace" ∧
    (ValidateCreate cli w).1 = some ErrThereCanBeOnlyOne ∧
    ∀ m, ErrThereCanBeOnlyOne ≠ GoErr.external m := by
  refine ⟨?_, ?_, fun m => by simp [ErrThereCanBeOnlyOne]⟩
  · simp [Handle, hop, hk, ValidateCreate, hcli, hdel, errorsIs,
      ErrThereCanBeOnlyOne, GoErr.message]
  · simp [ValidateCreate, hcli, hdel]

/-- Claim C6 witness: a concrete namespace with one live instance is denied
with the verbatim reason string. -/
theorem C6_witness :
    (Handle (fun _ => Except.ok [⟨none⟩]) widgetGate Context.background
        (createReq "team-a")).1 = Response.denied
      "there can be only one instance of this object per namespace" :=
  (C6_single_nondeleting_instance_denied (fun _ => Except.ok [⟨none⟩])
      widgetGate Context.background (createReq "team-a") ⟨none⟩
      rfl rfl rfl rfl).1

/-- Claim C7: for a matching create request whose queried namespace holds
exactly one instance carrying a non-null deletion timestamp, Handle returns
Allow. -/
theorem C7_single_deleting_instance_allowed (cli : ListFn) (w : Webhook)
    (ctx : Context) (req : AdmissionRequest) (inst : Instance)
    (hop : req.operation = Operation.create) (hk : req.kind = w.gvk)
    (hdel : inst.deletionTimestamp ≠ none)
    (hcli : cli ⟨Context.background, w.gvk, w.object.ns⟩ =
      Except.ok [inst]) :
    (Handle cli w ctx req).1 = Response.allowed "" := by
  simp [Handle, hop, hk, ValidateCreate, hcli, hdel]

/-- Claim C7 witness: one deleting instance, concrete inputs, Allow. -/
theorem C7_witness :
    (Handle (fun _ => Except.ok [⟨some 7⟩]) widgetGate Context.background
        (createReq "team-a")).1 = Response.allowed "" :=
  C7_single_deleting_instance_allowed (fun _ => Except.ok [⟨some 7⟩])
    widgetGate Context.background (createReq "team-a") ⟨some 7⟩
    rfl rfl (by decide) rfl

/-- Claim C8: a request whose operation is not create, or whose
(group, version, kind) differs from the bound identity in any component,
yields Allow with an empty message and an empty client-call trace — no
store query is made, whatever the store holds. -/
theorem C8_mismatch_allowed (cli : ListFn) (w : Webhook) (ctx : Context)
    (req : AdmissionRequest)
    (h : req.operation ≠ Operation.create ∨ req.kind.group ≠ w.gvk.group ∨
      req.kind.version ≠ w.gvk.version ∨ req.kind.kind ≠ w.gvk.kind) :
    Handle cli w ctx req = (Response.allowed "", []) := by
  by_cases hop : req.operation = Operation.create
  · rcases h with h | h | h | h
    · exact absurd hop h
    · simp [Handle, hop, h]
    · simp [Handle, hop, h]
    · simp [Handle, hop, h]
  · simp [Handle, hop]

/-- Claim C8 witness: an update request is allowed with no store call even
though the store would report a live instance. -/
theorem C8_witness :
    Handle (fun _ => Except.ok [⟨none⟩]) widgetGate Context.background
      ⟨Operation.update, widgetGVK, "team-a"⟩ =
      (Response.allowed "", []) :=
  C8_mismatch_allowed (fun _ => Except.ok [⟨none⟩]) widgetGate
    Context.background ⟨Operation.update, widgetGVK, "team-a"⟩
    (Or.inl (by decide))

/-- Claim C9: replaying the client calls Handle performs against any store
state leaves the store unchanged — the gate only ever lists, it never
creates, updates or deletes. -/
theorem C9_no_store_mutation (cli : ListFn) (w : Webhook) (ctx : Context)
    (req : AdmissionRequest) (store : Store) :
    applyCalls store (Handle cli w ctx req).2 = store := by
  rcases handle_trace_cases cli w ctx req with h | h <;>
    simp [h, applyCalls, applyCall]

/-- Claim C10: if the scheme lookup of the protected object fails,
SetupWithManager returns that error and performs no registration; when the
lookup succeeds, exactly one route is registered, derived from the resolved
identity. -/
theorem C10_setup_registers_only_on_success
    (scheme : ClientObject → Except GoErr GVK) (w : Webhook) :
    (∀ e, scheme w.object = Except.error e →
        SetupWithManager scheme w = (Except.error e, [])) ∧
    (∀ gvk, scheme w.object = Except.ok gvk →
        (SetupWithManager scheme w).2 = [⟨generateValidatePath gvk⟩]) := by
  constructor <;> intro x hx <;> simp [SetupWithManager, hx]

/-- Claim C10 witness: a failing scheme lookup at a concrete gate returns
the lookup error and registers nothing. -/
theorem C10_witness :
    SetupWithManager (fun _ => Except.error (GoErr.external "unregistered type"))
        (NewFor ⟨"Widget", ""⟩) =
      (Except.error (GoErr.external "unregistered type"), []) :=
  (C10_setup_registers_only_on_success
      (fun _ => Except.error (GoErr.external "unregistered type"))
      (NewFor ⟨"Widget", ""⟩)).1 (GoErr.external "unregistered type") rfl

end Highlander
